import Mathlib

/-!
# Verification of the photobooth camera-service control stack

Shallow embedding of the serialized camera-access worker
(`services/camera/src/camera_worker.py`), the connection supervisor
(`apps/camera-service/src/camera/manager.py`), the USB bus-reset helper
(`apps/camera-service/src/utils/usb_reset.py`), the gPhoto2 config layer
(`apps/camera-service/src/camera/gphoto2_camera.py`) and the WebSocket
preview broadcaster (`apps/camera-service/src/websocket/handler.py`),
together with theorems settling the specification claims.

Time-valued quantities (delays, timestamps, rate caps) are modelled as
rationals.  Python exceptions become explicit `Except` / sum results.
-/

namespace Photonic

/-! ## String helpers (Python `str.lower` and `in` substring test) -/

/-- ASCII lower-casing of one character (`str.lower` on the ASCII error
texts the worker inspects). -/
def lowerChar (c : Char) : Char :=
  if c.isUpper then Char.ofNat (c.toNat + 32) else c

/-- Whether `pat` is an initial segment of `text`. -/
def beginsWith : List Char → List Char → Bool
  | [], _ => true
  | _ :: _, [] => false
  | a :: as, b :: bs => a == b && beginsWith as bs

/-- Whether `pat` occurs contiguously inside `text`. -/
def containsSub : List Char → List Char → Bool
  | [], pat => pat.isEmpty
  | a :: t, pat => beginsWith pat (a :: t) || containsSub t pat

/-- Python `sub in s.lower()` substring containment. -/
def strContains (s sub : String) : Bool :=
  containsSub (s.toList.map lowerChar) sub.toList

/-! ## Serialized Access Queue: `CameraWorker` (camera_worker.py) -/

/-- Outcome of one call of an operation's wrapped function: it either
returns normally or raises an exception carrying a message
(`str(e)` in the Python source). -/
inductive AttemptOutcome
  | success
  | failure (msg : String)
deriving Repr

/-- `CameraWorker._execute_operation`'s transient-error classifier: the
lowered exception text contains "i/o in progress", "-110" or "io error". -/
def isIOError (msg : String) : Bool :=
  strContains msg "i/o in progress" ||
  strContains msg "-110" ||
  strContains msg "io error"

/-- `CameraWorker._io_error_delay` (0.1 s). -/
def ioErrorDelay : ℚ := 1 / 10

/-- `CameraWorker._max_io_error_delay` (1.0 s). -/
def maxIoErrorDelay : ℚ := 1

/-- A queued unit of work (`CameraOperation` dataclass).  The Python
`func/args/kwargs` closure is modelled by `behavior`, giving the outcome of
the call as a function of the current `retry_count` (the attempt index). -/
structure CameraOperation where
  opId : Nat
  behavior : Nat → AttemptOutcome
  retry_count : Nat := 0
  max_retries : Nat := 3

/-- What `CameraWorker._execute_operation` does with one dequeued
operation: resolve the future with a result, resolve it with the
exception, or re-enqueue the operation (at the queue tail) after a backoff
delay. -/
inductive ExecStep
  | completedOk
  | completedErr (msg : String)
  | requeued (op : CameraOperation) (delay : ℚ)

/-- `CameraWorker._execute_operation`: call the function; on success set
the result; on an I/O-in-progress class error with retries remaining,
increment `retry_count`, back off `min(0.1 * 2 ^ (retry_count - 1), 1.0)`
seconds and put the operation back on the queue; otherwise set the
exception on the future. -/
def execute_operation (op : CameraOperation) : ExecStep :=
  match op.behavior op.retry_count with
  | .success => .completedOk
  | .failure msg =>
      if isIOError msg && decide (op.retry_count < op.max_retries) then
        let rc := op.retry_count + 1
        .requeued { op with retry_count := rc }
          (min (ioErrorDelay * 2 ^ (rc - 1)) maxIoErrorDelay)
      else
        .completedErr msg

/-- Observable events of the worker thread: an attempt of an operation
ran (attempt numbers start at 1), or an operation's future resolved. -/
inductive WorkerEvent
  | exec (opId attempt : Nat)
  | resolvedOk (opId : Nat)
  | resolvedErr (opId : Nat) (msg : String)
deriving DecidableEq, Repr

/-- `CameraWorker._run`: repeatedly dequeue the head operation and execute
it; a transiently failed operation is re-enqueued at the tail.  Fuel
bounds the number of loop iterations modelled. -/
def runWorker : Nat → List CameraOperation → List WorkerEvent
  | 0, _ => []
  | _ + 1, [] => []
  | fuel + 1, op :: rest =>
      let ev := WorkerEvent.exec op.opId (op.retry_count + 1)
      match execute_operation op with
      | .completedOk => ev :: .resolvedOk op.opId :: runWorker fuel rest
      | .completedErr m => ev :: .resolvedErr op.opId m :: runWorker fuel rest
      | .requeued op' _ => ev :: runWorker fuel (rest ++ [op'])

/-- The operation ids of the execution events of a trace, in order. -/
def execIds : List WorkerEvent → List Nat
  | [] => []
  | .exec i _ :: t => i :: execIds t
  | .resolvedOk _ :: t => execIds t
  | .resolvedErr _ _ :: t => execIds t

/-- A sequence of operation ids has no interleaving when the occurrences
of each id are contiguous: no id recurs after a different id intervened. -/
def NoInterleave (ids : List Nat) : Prop :=
  ∀ i j k : Fin ids.length, i < j → j < k →
    ids.get i = ids.get k → ids.get j = ids.get i

instance (ids : List Nat) : Decidable (NoInterleave ids) := by
  unfold NoInterleave; infer_instance

/-- Operation 1 of the C1 scenario: fails with a transient I/O error on
its first attempt and succeeds on the second. -/
def c1opA : CameraOperation :=
  { opId := 1,
    behavior := fun n => if n = 0 then .failure "io error" else .success }

/-- Operation 2 of the C1 scenario: always succeeds. -/
def c1opB : CameraOperation :=
  { opId := 2, behavior := fun _ => .success }

/-- Witness operation for `C1_theorem`: always succeeds. -/
def c1wOp1 : CameraOperation :=
  { opId := 5, behavior := fun _ => .success }

/-- Second witness operation for `C1_theorem`: always succeeds. -/
def c1wOp2 : CameraOperation :=
  { opId := 6, behavior := fun _ => .success }

/-- C2 witness operation: always raises a transient I/O error. -/
def c2opT : CameraOperation :=
  { opId := 11, behavior := fun _ => .failure "io error" }

/-- C2 witness operation: always raises a non-transient error. -/
def c2opN : CameraOperation :=
  { opId := 12, behavior := fun _ => .failure "lens cap on" }

/-- C2 witness operation: transient failure with retries exhausted. -/
def c2opX : CameraOperation :=
  { opId := 13, behavior := fun _ => .failure "io error", retry_count := 3 }

/-! ## Rate-limited frame fetch: `CameraWorker.get_liveview_frame` -/

/-- Raw frame bytes returned by the backend. -/
abbrev FrameBytes := List Nat

/-- `CameraWorker.get_liveview_frame`: if the time since the last
delivered frame is below `1 / frame_rate_cap`, return the no-frame-yet
sentinel without submitting anything; otherwise submit the frame-capture
operation and await its future (an exception from the future becomes the
sentinel).  The second component counts operations submitted to the
queue. -/
def get_liveview_frame (now last_frame_time frame_rate_cap : ℚ)
    (captureResult : Except String (Option FrameBytes)) :
    Option FrameBytes × Nat :=
  let min_frame_time := 1 / frame_rate_cap
  let time_since_last := now - last_frame_time
  if time_since_last < min_frame_time then
    (none, 0)
  else
    match captureResult with
    | .ok f => (f, 1)
    | .error _ => (none, 1)

/-! ## Preview frames and `CameraManager.get_preview_frame` -/

/-- A PIL image: either data captured from the device or a solid-colour
image produced by `Image.new`. -/
inductive Frame
  | captured (data : List Nat)
  | solid (w h : Nat) (r g b : Nat)
deriving DecidableEq, Repr

/-- `Image.new('RGB', (640, 480), color=(0, 0, 0))`. -/
def blackPreviewFrame : Frame := .solid 640 480 0 0 0

/-- The only exception `CameraManager.get_preview_frame` can raise. -/
inductive PreviewError
  | cameraNotReady
deriving DecidableEq, Repr

/-- `CameraManager.get_preview_frame`: raise Camera-not-ready when
`is_camera_ready()` is false; otherwise return the captured frame, or —
when the underlying capture raised — swallow the error and return the
640x480 black frame, scheduling `_auto_recover` exactly when the camera
flags `needs_usb_reset` (the Bool in the result). -/
def manager_get_preview_frame (ready : Bool)
    (capture : Except String Frame) (needs_usb_reset : Bool) :
    Except PreviewError (Frame × Bool) :=
  if ready then
    match capture with
    | .ok f => .ok (f, false)
    | .error _ => .ok (blackPreviewFrame, needs_usb_reset)
  else
    .error .cameraNotReady

/-! ## Preview Broadcaster: `CameraWebSocketHandler.preview_stream_loop` -/

/-- A WebSocket client in `self.connections`: an id and whether
`send_text` to it succeeds. -/
structure Subscriber where
  sid : Nat
  sendOk : Bool
deriving DecidableEq, Repr

/-- The broadcaster state the loop body reads and writes. -/
structure LoopState where
  connections : List Subscriber
  frame_count : Nat
deriving DecidableEq, Repr

/-- Observable outcome of one iteration of the `while self.is_streaming`
body: the updated state, how many frame fetches were issued against the
camera manager, which subscribers were attempted, and which received the
frame. -/
structure TickResult where
  state : LoopState
  fetches : Nat
  attempted : List Subscriber
  delivered : List Subscriber
deriving DecidableEq, Repr

/-- One iteration of `preview_stream_loop`: with no connections, sleep
0.1 s and re-check (no fetch, no sends); otherwise fetch one frame — an
exception lands in the outer handler (log, sleep 0.5 s, continue) — and
on success send it to every connection, collecting the failing ones in
`disconnected` and removing them from the set afterwards. -/
def previewTick (st : LoopState) (frame : Except String Frame) : TickResult :=
  if st.connections.isEmpty then
    { state := st, fetches := 0, attempted := [], delivered := [] }
  else
    match frame with
    | .error _ =>
        { state := st, fetches := 1, attempted := [], delivered := [] }
    | .ok _ =>
        { state := { connections := st.connections.filter (fun s => s.sendOk),
                     frame_count := st.frame_count + 1 },
          fetches := 1,
          attempted := st.connections,
          delivered := st.connections.filter (fun s => s.sendOk) }

/-- Iterated loop body over a list of per-tick fetch results, collecting
the per-tick delivery lists. -/
def runTicks (st : LoopState) :
    List (Except String Frame) → LoopState × List (List Subscriber)
  | [] => (st, [])
  | f :: fs =>
      let r := previewTick st f
      let rest := runTicks r.state fs
      (rest.1, r.delivered :: rest.2)

/-- An empty broadcaster state for the C8 witness. -/
def c8emptyState : LoopState := { connections := [], frame_count := 0 }

/-- A one-subscriber broadcaster state for the C8 witness. -/
def c8busyState : LoopState :=
  { connections := [⟨7, true⟩], frame_count := 0 }

/-- Witness helper for `runTicks_avoid`: a state without subscriber 9. -/
def c9avoidState : LoopState := { connections := [⟨8, true⟩], frame_count := 0 }

/-- The three-subscriber broadcaster state of the C9 scenario, with
subscriber 2 failing on send. -/
def c9state : LoopState :=
  { connections := [⟨1, true⟩, ⟨2, false⟩, ⟨3, true⟩], frame_count := 0 }

/-- The frame fanned out in the C9 scenario. -/
def c9frame : Frame := .captured [7]

/-! ## Connection Supervisor: `CameraManager` (manager.py)

Sleeps (`restart_delay`, the 2 s settle after a reset) do not influence
the control flow and are not modelled.  The camera handle is modelled as
`Option Bool`: present or not, and whether its `is_ready()` reports
ready. -/

/-- The `CameraManager` fields the connect/recovery logic reads and
writes, with the configuration defaults of `__init__`. -/
structure ManagerState where
  restart_attempts : Nat
  max_restart_attempts : Nat := 3
  auto_usb_reset : Bool := true
  max_usb_reset_attempts : Nat := 2
  usb_reset_count : Nat
  is_initialized : Bool
  camera : Option Bool
deriving DecidableEq, Repr

/-- Outcome of one `GPhoto2Camera.initialize` call: success, or an
exception with the camera object left flagging `needs_usb_reset` (true
exactly for PTP-timeout failures). -/
inductive ConnectOutcome
  | ok
  | fail (needs_usb_reset : Bool)
deriving DecidableEq, Repr

/-- `CameraManager._try_usb_reset`: refuse when auto-reset is disabled or
the reset budget is exhausted; otherwise count the attempt, invoke
`UsbResetHelper.reset_usb_device` and return its verdict.  `resetOk n`
is the verdict of the n-th helper invocation; the last component counts
helper invocations. -/
def try_usb_reset (st : ManagerState) (resetOk : Nat → Bool)
    (resetCalls : Nat) : Bool × ManagerState × Nat :=
  if !st.auto_usb_reset then (false, st, resetCalls)
  else if st.max_usb_reset_attempts ≤ st.usb_reset_count then
    (false, st, resetCalls)
  else
    (resetOk resetCalls,
     { st with usb_reset_count := st.usb_reset_count + 1 },
     resetCalls + 1)

/-- How `CameraManager._try_connect_camera` ends: connected, raised
`RuntimeError` after exhausting the restart budget, returned without
connecting (entry condition already false), or ran out of modelling
fuel. -/
inductive ConnectResult
  | connected
  | failed
  | returned
  | outOfFuel
deriving DecidableEq, Repr

/-- Result of a `_try_connect_camera` run: how it ended, the final
manager state, the number of connect attempts made and the number of
`reset_usb_device` invocations. -/
structure ConnectTrace where
  result : ConnectResult
  state : ManagerState
  connectCalls : Nat
  resetCalls : Nat
deriving DecidableEq, Repr

/-- `CameraManager._try_connect_camera`: while the restart budget
remains, create a camera and initialize it (`connect cc` is the outcome
of the cc-th attempt); on success zero the USB-reset counter and return.
On failure increment `restart_attempts`; if the camera flags
`needs_usb_reset`, clear the flag and attempt a USB reset — on reset
success, uncount the attempt (`max(0, attempts - 1)`, i.e. Nat
subtraction) and retry immediately; otherwise retry after a delay while
budget remains, else raise. -/
def try_connect_camera (connect : Nat → ConnectOutcome) (resetOk : Nat → Bool) :
    Nat → ManagerState → Nat → Nat → ConnectTrace
  | 0, st, cc, rc => ⟨.outOfFuel, st, cc, rc⟩
  | fuel + 1, st, cc, rc =>
      if st.restart_attempts < st.max_restart_attempts then
        match connect cc with
        | .ok =>
            ⟨.connected, { st with camera := some true, usb_reset_count := 0 },
             cc + 1, rc⟩
        | .fail needsReset =>
            let st1 := { st with camera := some false,
                                 restart_attempts := st.restart_attempts + 1 }
            if needsReset then
              let r := try_usb_reset st1 resetOk rc
              if r.1 then
                let st2 := { r.2.1 with
                             restart_attempts := r.2.1.restart_attempts - 1 }
                try_connect_camera connect resetOk fuel st2 (cc + 1) r.2.2
              else
                if r.2.1.restart_attempts < r.2.1.max_restart_attempts then
                  try_connect_camera connect resetOk fuel r.2.1 (cc + 1) r.2.2
                else ⟨.failed, r.2.1, cc + 1, r.2.2⟩
            else
              if st1.restart_attempts < st1.max_restart_attempts then
                try_connect_camera connect resetOk fuel st1 (cc + 1) rc
              else ⟨.failed, st1, cc + 1, rc⟩
      else ⟨.returned, st, cc, rc⟩

/-- `CameraManager.initialize`: run `_try_connect_camera` unless already
initialized; when it returns without raising, set `_is_initialized` and
zero `_restart_attempts`; when it raises, re-raise (leaving
`_is_initialized` false). -/
def initializeManager (connect : Nat → ConnectOutcome) (resetOk : Nat → Bool)
    (fuel : Nat) (st : ManagerState) : ConnectTrace :=
  if st.is_initialized then ⟨.connected, st, 0, 0⟩
  else
    let t := try_connect_camera connect resetOk fuel st 0 0
    match t.result with
    | .connected =>
        ⟨.connected,
         { t.state with is_initialized := true, restart_attempts := 0 },
         t.connectCalls, t.resetCalls⟩
    | .returned =>
        ⟨.returned,
         { t.state with is_initialized := true, restart_attempts := 0 },
         t.connectCalls, t.resetCalls⟩
    | r => ⟨r, t.state, t.connectCalls, t.resetCalls⟩

/-- `CameraManager.is_camera_ready`: false unless initialized and a
camera object exists; then the camera's own readiness. -/
def is_camera_ready (st : ManagerState) : Bool :=
  match st.camera with
  | none => false
  | some r => st.is_initialized && r

/-- The manager state right after `__init__` with the default
configuration. -/
def initialManagerState : ManagerState :=
  { restart_attempts := 0, usb_reset_count := 0,
    is_initialized := false, camera := none }

/-- C3 witness connect stub: every attempt fails with a non-timeout
cause. -/
def c3connect : Nat → ConnectOutcome := fun _ => .fail false

/-- C3 witness reset stub (never consulted in the C3 run). -/
def c3reset : Nat → Bool := fun _ => false

/-- C4 witness connect stub: the first attempt fails with a protocol
timeout, later attempts succeed. -/
def c4connect : Nat → ConnectOutcome :=
  fun n => if n = 0 then .fail true else .ok

/-- C4 witness reset stub: every bus reset succeeds. -/
def c4reset : Nat → Bool := fun _ => true

/-! ## Config layer: `GPhoto2Camera.set_config_value` / `get_config_value`

Python runtime values reaching the config calls are integers, floats or
strings.  Python's `str()` rendering of a float is abstracted by the
rational's `toString`; `float(str)` is modelled for optionally signed
decimal literals, the fragment these calls can meet. -/

/-- A Python value handed to or held by a config widget. -/
inductive PyValue
  | pyInt (n : Int)
  | pyFloat (q : ℚ)
  | pyStr (s : String)
deriving DecidableEq, Repr

/-- Value of a decimal digit character. -/
def digitVal (c : Char) : Nat := c.toNat - 48

/-- Natural number denoted by a digit string. -/
def digitsVal (ds : List Char) : Nat :=
  ds.foldl (fun acc c => acc * 10 + digitVal c) 0

/-- Python `float(str)` on an optionally signed decimal literal;
`none` models the raised `ValueError`. -/
def parseFloatChars (cs : List Char) : Option ℚ :=
  let p := match cs with
    | '-' :: r => ((-1 : ℚ), r)
    | r => ((1 : ℚ), r)
  let intPart := p.2.takeWhile (fun c => c.isDigit)
  let rest2 := p.2.dropWhile (fun c => c.isDigit)
  match rest2 with
  | [] =>
      if intPart.isEmpty then none
      else some (p.1 * (digitsVal intPart : ℚ))
  | '.' :: frac =>
      if frac.all (fun c => c.isDigit) &&
          !(intPart.isEmpty && frac.isEmpty) then
        some (p.1 * ((digitsVal intPart : ℚ) +
          (digitsVal frac : ℚ) / 10 ^ frac.length))
      else none
  | _ => none

/-- Python `int(str)` on an optionally signed decimal literal; `none`
models the raised `ValueError`. -/
def parseIntChars (cs : List Char) : Option Int :=
  let p := match cs with
    | '-' :: r => ((-1 : Int), r)
    | r => ((1 : Int), r)
  if !p.2.isEmpty && p.2.all (fun c => c.isDigit) then
    some (p.1 * digitsVal p.2)
  else none

/-- Python `int(value)`: identity on ints, truncation toward zero on
floats, decimal parse on strings; `none` models the raised error. -/
def pyToInt : PyValue → Option Int
  | .pyInt n => some n
  | .pyFloat q => some (q.num.tdiv q.den)
  | .pyStr s => parseIntChars s.toList

/-- Python `float(value)`; `none` models the raised error. -/
def pyToFloat : PyValue → Option ℚ
  | .pyInt n => some n
  | .pyFloat q => some q
  | .pyStr s => parseFloatChars s.toList

/-- Python `str(value)` (float rendering abstracted). -/
def pyToStr : PyValue → String
  | .pyInt n => toString n
  | .pyFloat q => toString q
  | .pyStr s => s

/-- gPhoto2 widget kinds the coercion switch distinguishes
(`GP_WIDGET_TOGGLE/RADIO/RANGE/TEXT/DATE`, plus the fallback arm). -/
inductive WidgetKind
  | toggle | radio | range | text | date | other
deriving DecidableEq, Repr

/-- A config widget: its kind, choice list (radio), current value and
whether `widget.set_value` plus `camera.set_config` succeed for a given
coerced value. -/
structure Widget where
  wkind : WidgetKind
  choices : List String
  current : PyValue
  applyOk : PyValue → Bool

/-- The camera config tree flattened to `(section, option, widget)`
rows; `get_child_by_name` raises (a `GPhoto2Error`) on a missing name. -/
def findWidget (cfg : List (String × String × Widget))
    (sect opt : String) : Option Widget :=
  match cfg.find? (fun e => e.1 == sect && e.2.1 == opt) with
  | some e => some e.2.2
  | none => none

/-- The widget-kind switch of `set_config_value`: toggle needs an int,
radio a string from the choices (with the 'Memory card' alias
fallbacks), range a float, text a string, date an int timestamp, and the
fallback arm matches the current value's type.  `none` is a raised
coercion error (`ValueError` from `int`/`float`). -/
def coerceForWidget (w : Widget) (value : PyValue) : Option PyValue :=
  match w.wkind with
  | .toggle => (pyToInt value).map .pyInt
  | .radio =>
      let str_value := pyToStr value
      if w.choices.contains str_value then some (.pyStr str_value)
      else if str_value == "Memory card" && w.choices.contains "card" then
        some (.pyStr "card")
      else if str_value == "Memory card" &&
          w.choices.contains "card+sdram" then
        some (.pyStr "card+sdram")
      else some (.pyStr str_value)
  | .range => (pyToFloat value).map .pyFloat
  | .text => some (.pyStr (pyToStr value))
  | .date => (pyToInt value).map .pyInt
  | .other =>
      match w.current with
      | .pyInt _ => (pyToInt value).map .pyInt
      | .pyFloat _ => (pyToFloat value).map .pyFloat
      | .pyStr _ => some (.pyStr (pyToStr value))

/-- The errors the config calls could raise to their caller. -/
inductive ConfigError
  | unsupportedOption
  | unknownOption (sect opt : String)
deriving DecidableEq, Repr

/-- How a `set_config_value` call ended: value applied, or failure
swallowed with a logged warning (`except gp.GPhoto2Error`) or a logged
error (`except Exception`). -/
inductive SetOutcome
  | applied (v : PyValue)
  | warnLogged
  | errLogged
deriving DecidableEq, Repr

/-- `GPhoto2Camera.set_config_value`: look the widget up, coerce the
value by widget kind, apply it.  Every failure path is caught inside the
function — a missing widget or a rejected apply is logged as a warning,
a coercion error is logged as an error — and the call returns normally:
the `Except.error` constructor is never produced. -/
def set_config_value (cfg : List (String × String × Widget))
    (sect opt : String) (value : PyValue) :
    Except ConfigError SetOutcome :=
  match findWidget cfg sect opt with
  | none => .ok .warnLogged
  | some w =>
      match coerceForWidget w value with
      | none => .ok .errLogged
      | some v =>
          if w.applyOk v then .ok (.applied v)
          else .ok .warnLogged

/-- `GPhoto2Camera.get_config_value`: return the widget's value, or
raise `ValueError` ("Unknown option section/option") when the lookup
fails. -/
def get_config_value (cfg : List (String × String × Widget))
    (sect opt : String) : Except ConfigError PyValue :=
  match findWidget cfg sect opt with
  | some w => .ok w.current
  | none => .error (.unknownOption sect opt)

deriving instance DecidableEq for Except

/-- The C5 counterexample config: a toggle widget, and a radio
capture-target widget whose device apply always fails. -/
def c5cfgBad : List (String × String × Widget) :=
  [("actions", "viewfinder",
    { wkind := .toggle, choices := [], current := .pyInt 0,
      applyOk := fun _ => true }),
   ("settings", "capturetarget",
    { wkind := .radio, choices := ["card"], current := .pyStr "card",
      applyOk := fun _ => false })]

/-- The C5 witness toggle widget, accepting every value. -/
def c5toggleWidget : Widget :=
  { wkind := .toggle, choices := [], current := .pyInt 0,
    applyOk := fun _ => true }

/-- The C5 witness config: the toggle widget under
`actions/viewfinder`. -/
def c5cfgGood : List (String × String × Widget) :=
  [("actions", "viewfinder", c5toggleWidget)]

/-! ## Bus Reset Controller: `UsbResetHelper` (usb_reset.py)

The sysfs tree is modelled as the list of device directories the
`/sys/bus/usb/devices/*/idVendor` glob visits, in glob order.  A device
whose `idVendor` read raises is `idVendor := none` (the scan skips it);
`hasAuthorized` is whether the `authorized` attribute file exists and
`authWritable` whether writing it succeeds (false models the
`PermissionError`/`OSError` paths). -/

/-- One USB sysfs device directory as the helper sees it. -/
structure UsbDevice where
  path : String
  idVendor : Option String
  hasAuthorized : Bool
  authWritable : Bool
deriving DecidableEq, Repr

/-- `UsbResetHelper.find_camera_sysfs_path`: the first scanned device
whose readable `idVendor` equals the configured vendor id and which has
an `authorized` file; raises `FileNotFoundError` (the `.error` case)
otherwise. -/
def find_camera_sysfs_path (vendor_id : String) (devs : List UsbDevice) :
    Except Unit String :=
  match devs.find? (fun d => d.idVendor == some vendor_id && d.hasAuthorized) with
  | some d => .ok d.path
  | none => .error ()

/-- `UsbResetHelper.reset_usb_device` called with `sysfs_path=None` (as
the supervisor does): resolve the path from the cache when its
`authorized` file still exists, else locate by vendor id (a
`FileNotFoundError` is caught and yields `False`); check the
`authorized` file, write 0 then 1 (a permission or I/O error yields
`False`), and finally verify the device reappears in the re-enumerated
tree `devsAfter` — returning `True` only then.  Every failure mode
returns `False`; no exception escapes. -/
def reset_usb_device (vendor_id : String) (cached : Option String)
    (devsBefore devsAfter : List UsbDevice) : Bool :=
  let sysfs_path? : Option String :=
    match cached with
    | some p =>
        if (devsBefore.find? (fun d => d.path == p && d.hasAuthorized)).isSome
        then some p
        else
          match find_camera_sysfs_path vendor_id devsBefore with
          | .ok p2 => some p2
          | .error _ => none
    | none =>
        match find_camera_sysfs_path vendor_id devsBefore with
        | .ok p2 => some p2
        | .error _ => none
  match sysfs_path? with
  | none => false
  | some p =>
      match devsBefore.find? (fun d => d.path == p) with
      | none => false
      | some d =>
          if !d.hasAuthorized then false
          else if !d.authWritable then false
          else
            match find_camera_sysfs_path vendor_id devsAfter with
            | .ok _ => true
            | .error _ => false

/-- The single Canon camera device of the C6 witness, healthy except
that writing its `authorized` attribute is denied. -/
def c6deviceDenied : UsbDevice :=
  { path := "/sys/bus/usb/devices/1-4", idVendor := some "04a9",
    hasAuthorized := true, authWritable := false }

/-- The C6 witness device with a writable `authorized` attribute. -/
def c6deviceOk : UsbDevice :=
  { path := "/sys/bus/usb/devices/1-4", idVendor := some "04a9",
    hasAuthorized := true, authWritable := true }

/-- A C6 witness hub device of another vendor. -/
def c6deviceHub : UsbDevice :=
  { path := "/sys/bus/usb/devices/usb1", idVendor := some "1d6b",
    hasAuthorized := true, authWritable := true }

end Photonic

/-! ## Theorems settling the claims -/

namespace Photonic

/-- C1 (counterexample): the claim that the worker executes operations
strictly in submission order with no interleaving, including under
transient-error retries, is false.  Submitting operation 1 (which fails
transiently once) before operation 2 yields the attempt trace
`[1, 2, 1]`: operation 2 executes between the two attempts of
operation 1, because `_execute_operation` re-enqueues a retried operation
at the tail of the queue. -/
theorem C1_counterexample :
    execIds (runWorker 10 [c1opA, c1opB]) = [1, 2, 1] ∧
    ¬ NoInterleave (execIds (runWorker 10 [c1opA, c1opB])) := by
  decide

/-- C1 (amended): the worker executes at most one attempt at a time,
dequeuing from the head; when no submitted operation undergoes a
transient-error retry, each operation executes exactly once and the
execution order is exactly the submission (FIFO) order.  (A retried
operation is re-enqueued at the queue tail, so its later attempts may run
after operations submitted later.) -/
theorem C1_theorem (ops : List CameraOperation) (fuel : Nat)
    (hnr : ∀ op ∈ ops, ∀ op' d, execute_operation op ≠ .requeued op' d)
    (hf : ops.length ≤ fuel) :
    execIds (runWorker fuel ops) = ops.map CameraOperation.opId := by
  induction ops generalizing fuel with
  | nil => cases fuel <;> simp [runWorker, execIds]
  | cons op rest ih =>
      obtain ⟨f, rfl⟩ : ∃ f, fuel = f + 1 := by
        cases fuel with
        | zero => simp at hf
        | succ f => exact ⟨f, rfl⟩
      have hrest : ∀ o ∈ rest, ∀ op' d, execute_operation o ≠ .requeued op' d :=
        fun o ho => hnr o (List.mem_cons_of_mem _ ho)
      have hlen : rest.length ≤ f := by
        simpa using Nat.succ_le_succ_iff.mp hf
      cases h : execute_operation op with
      | completedOk =>
          simp [runWorker, h, execIds, ih f hrest hlen]
      | completedErr m =>
          simp [runWorker, h, execIds, ih f hrest hlen]
      | requeued op' d =>
          exact absurd h (hnr op (List.mem_cons_self _ _) op' d)

/-- Witness for `C1_theorem`: two retry-free operations execute in
submission order. -/
theorem C1_theorem_witness :
    execIds (runWorker 2 [c1wOp1, c1wOp2]) =
      [c1wOp1, c1wOp2].map CameraOperation.opId := by
  apply C1_theorem
  · intro op hop op' d h
    rcases List.mem_cons.mp hop with rfl | hop2
    · simp [execute_operation, c1wOp1] at h
    · rcases List.mem_cons.mp hop2 with rfl | hop3
      · simp [execute_operation, c1wOp2] at h
      · cases hop3
  · decide

/-- C2: `_execute_operation`'s retry policy.  When the raised error is
classified transient (its lowered text contains "i/o in progress",
"-110" or "io error") and the retry count is below the max-retry bound
(structure default 3), the operation is re-enqueued with the count
incremented after a backoff of `min(0.1 * 2 ^ (newCount - 1), 1.0)`
seconds; with retries exhausted the future resolves to that failure; a
non-transient error resolves the future to failure immediately, with the
retry count untouched. -/
theorem C2_theorem (op : CameraOperation) (msg : String)
    (hb : op.behavior op.retry_count = .failure msg) :
    (isIOError msg = true → op.retry_count < op.max_retries →
      execute_operation op =
        .requeued { op with retry_count := op.retry_count + 1 }
          (min (ioErrorDelay * 2 ^ op.retry_count) maxIoErrorDelay)) ∧
    (isIOError msg = true → op.max_retries ≤ op.retry_count →
      execute_operation op = .completedErr msg) ∧
    (isIOError msg = false → execute_operation op = .completedErr msg) ∧
    (∀ oid b, ({ opId := oid, behavior := b } : CameraOperation).max_retries = 3) := by
  refine ⟨?_, ?_, ?_, fun _ _ => rfl⟩
  · intro hio hlt
    simp [execute_operation, hb, hio, hlt]
  · intro hio hge
    simp [execute_operation, hb, hio, Nat.not_lt.mpr hge]
  · intro hio
    simp [execute_operation, hb, hio]

/-- Witness for `C2_theorem`: a transient first failure is re-enqueued
with backoff `min(0.1 * 2 ^ 0, 1.0)`; a non-transient failure and an
exhausted transient failure both resolve the future to the failure. -/
theorem C2_theorem_witness :
    execute_operation c2opT =
      .requeued { c2opT with retry_count := 1 }
        (min (ioErrorDelay * 2 ^ 0) maxIoErrorDelay) ∧
    execute_operation c2opN = .completedErr "lens cap on" ∧
    execute_operation c2opX = .completedErr "io error" := by
  refine ⟨?_, ?_, ?_⟩
  · exact (C2_theorem c2opT "io error" rfl).1 (by decide) (by decide)
  · exact (C2_theorem c2opN "lens cap on" rfl).2.2.1 (by decide)
  · exact (C2_theorem c2opX "io error" rfl).2.1 (by decide) (by decide)

/-- C7: the rate-limited frame-fetch entry point returns the no-frame-yet
sentinel without enqueueing any operation while the minimum inter-frame
interval `1 / frame_rate_cap` has not elapsed, and submits exactly one
frame-capture operation once it has. -/
theorem C7_theorem (now last cap : ℚ)
    (res : Except String (Option FrameBytes)) :
    (now - last < 1 / cap →
      get_liveview_frame now last cap res = (none, 0)) ∧
    (¬ now - last < 1 / cap →
      (get_liveview_frame now last cap res).2 = 1) := by
  constructor
  · intro h
    simp only [get_liveview_frame]
    rw [if_pos h]
  · intro h
    simp only [get_liveview_frame]
    rw [if_neg h]
    cases res <;> rfl

/-- Witness for `C7_theorem`: with a 20 fps cap, a call 1/40 s after the
last frame is rejected without enqueueing; a call 1 s after submits one
operation. -/
theorem C7_theorem_witness :
    get_liveview_frame 100 (100 - 1 / 40) 20 (.ok (some [1])) = (none, 0) ∧
    (get_liveview_frame 101 100 20 (.ok (some [1]))).2 = 1 :=
  ⟨(C7_theorem 100 (100 - 1 / 40) 20 (.ok (some [1]))).1 (by norm_num),
   (C7_theorem 101 100 20 (.ok (some [1]))).2 (by norm_num)⟩

/-- C8: a loop tick with an empty subscriber set issues zero frame
fetches, sends nothing and leaves the state unchanged; a tick that issued
a frame fetch had a non-empty subscriber set. -/
theorem C8_theorem (st : LoopState) (frame : Except String Frame) :
    (st.connections = [] →
      previewTick st frame =
        { state := st, fetches := 0, attempted := [], delivered := [] }) ∧
    (1 ≤ (previewTick st frame).fetches → st.connections ≠ []) := by
  constructor
  · intro h
    simp [previewTick, h]
  · intro h hc
    simp [previewTick, hc] at h

/-- Witness for `C8_theorem`: the empty state fetches nothing; a state
that fetched has a subscriber. -/
theorem C8_theorem_witness :
    previewTick c8emptyState (.ok (.captured [1])) =
      { state := c8emptyState, fetches := 0, attempted := [], delivered := [] } ∧
    c8busyState.connections ≠ [] :=
  ⟨(C8_theorem c8emptyState (.ok (.captured [1]))).1 rfl,
   (C8_theorem c8busyState (.ok (.captured [1]))).2 (by decide)⟩

/-- A subscriber of `previewTick`'s post-state was already in the
pre-state set (the loop never adds subscribers). -/
theorem previewTick_state_mem {st : LoopState} {f : Except String Frame}
    {s : Subscriber} (h : s ∈ (previewTick st f).state.connections) :
    s ∈ st.connections := by
  unfold previewTick at h
  split at h
  · exact h
  · cases f with
    | error e => exact h
    | ok fr => exact (List.mem_filter.mp h).1

/-- A subscriber delivered to in a tick was in the pre-state set. -/
theorem previewTick_delivered_mem {st : LoopState} {f : Except String Frame}
    {s : Subscriber} (h : s ∈ (previewTick st f).delivered) :
    s ∈ st.connections := by
  unfold previewTick at h
  split at h
  · cases h
  · cases f with
    | error e => cases h
    | ok fr => exact (List.mem_filter.mp h).1

/-- A subscriber absent from the set stays absent over any further ticks
and appears in no further delivery list. -/
theorem runTicks_avoid {s : Subscriber} :
    ∀ (frames : List (Except String Frame)) (st : LoopState),
      s ∉ st.connections →
      s ∉ (runTicks st frames).1.connections ∧
      ∀ d ∈ (runTicks st frames).2, s ∉ d
  | [], _, h => ⟨h, by simp [runTicks]⟩
  | f :: fs, st, h => by
      have hstep : s ∉ (previewTick st f).state.connections :=
        fun hm => h (previewTick_state_mem hm)
      have ih := runTicks_avoid fs (previewTick st f).state hstep
      refine ⟨ih.1, ?_⟩
      intro d hd
      simp only [runTicks, List.mem_cons] at hd
      rcases hd with rfl | hd
      · exact fun hm => h (previewTick_delivered_mem hm)
      · exact ih.2 d hd

/-- Witness for `runTicks_avoid` at a concrete state and tick list. -/
theorem runTicks_avoid_witness :
    (⟨9, true⟩ : Subscriber) ∉
        (runTicks c9avoidState [.ok (.captured [1])]).1.connections ∧
    ∀ d ∈ (runTicks c9avoidState [.ok (.captured [1])]).2,
        (⟨9, true⟩ : Subscriber) ∉ d :=
  runTicks_avoid [.ok (.captured [1])] c9avoidState (by decide)

/-- C9: on a broadcast tick that delivered a frame, every subscriber in
the set receives a send attempt; every subscriber whose send succeeds
receives the frame, regardless of other subscribers failing; a subscriber
whose send fails is removed from the set before the next tick and, over
any sequence of subsequent ticks, never reappears and receives no further
delivery. -/
theorem C9_theorem (st : LoopState) (f : Frame) (s : Subscriber)
    (hs : s ∈ st.connections) :
    s ∈ (previewTick st (.ok f)).attempted ∧
    (s.sendOk = true → s ∈ (previewTick st (.ok f)).delivered) ∧
    (s.sendOk = false →
      s ∉ (previewTick st (.ok f)).state.connections ∧
      ∀ frames,
        s ∉ (runTicks (previewTick st (.ok f)).state frames).1.connections ∧
        ∀ d ∈ (runTicks (previewTick st (.ok f)).state frames).2, s ∉ d) := by
  have hne : st.connections.isEmpty = false := by
    cases hcs : st.connections with
    | nil => rw [hcs] at hs; cases hs
    | cons a t => simp
  refine ⟨?_, ?_, ?_⟩
  · simpa [previewTick, hne] using hs
  · intro hok
    simp [previewTick, hne, List.mem_filter]
    exact ⟨hs, hok⟩
  · intro hbad
    have hnot : s ∉ (previewTick st (.ok f)).state.connections := by
      simp [previewTick, hne, List.mem_filter, hbad]
    exact ⟨hnot, fun frames => runTicks_avoid frames _ hnot⟩

/-- Witness for `C9_theorem`: of three subscribers with one failing, the
two healthy ones receive the frame, and the failing one is removed and
absent from the deliveries of two further ticks. -/
theorem C9_theorem_witness :
    (⟨1, true⟩ : Subscriber) ∈ (previewTick c9state (.ok c9frame)).delivered ∧
    (⟨3, true⟩ : Subscriber) ∈ (previewTick c9state (.ok c9frame)).delivered ∧
    (⟨2, false⟩ : Subscriber) ∉ (previewTick c9state (.ok c9frame)).state.connections ∧
    ∀ d ∈ (runTicks (previewTick c9state (.ok c9frame)).state
        [.ok c9frame, .ok c9frame]).2,
      (⟨2, false⟩ : Subscriber) ∉ d := by
  refine ⟨?_, ?_, ?_, ?_⟩
  · exact (C9_theorem c9state c9frame ⟨1, true⟩ (by decide)).2.1 rfl
  · exact (C9_theorem c9state c9frame ⟨3, true⟩ (by decide)).2.1 rfl
  · exact ((C9_theorem c9state c9frame ⟨2, false⟩ (by decide)).2.2 rfl).1
  · exact (((C9_theorem c9state c9frame ⟨2, false⟩ (by decide)).2.2 rfl).2
      [.ok c9frame, .ok c9frame]).2

/-- C10: while the camera is ready, `get_preview_frame` never propagates
an exception — a failing capture yields the 640x480 black RGB frame
(scheduling background recovery exactly when the camera flags
`needs_usb_reset`) — and it raises exactly the Camera-not-ready error
when `is_camera_ready()` is false. -/
theorem C10_theorem (ready : Bool) (capture : Except String Frame)
    (nr : Bool) :
    (ready = true → ∃ out, manager_get_preview_frame ready capture nr = .ok out) ∧
    (ready = true → ∀ msg, capture = .error msg →
      manager_get_preview_frame ready capture nr = .ok (blackPreviewFrame, nr)) ∧
    (∀ e, manager_get_preview_frame ready capture nr = .error e →
      ready = false ∧ e = .cameraNotReady) ∧
    (ready = false →
      manager_get_preview_frame ready capture nr = .error .cameraNotReady) := by
  refine ⟨?_, ?_, ?_, ?_⟩
  · rintro rfl
    cases capture <;> simp [manager_get_preview_frame]
  · rintro rfl msg rfl
    simp [manager_get_preview_frame]
  · intro e he
    cases ready with
    | false =>
        exact ⟨rfl, by cases e; rfl⟩
    | true => cases capture <;> simp [manager_get_preview_frame] at he
  · rintro rfl
    cases capture <;> simp [manager_get_preview_frame]

/-- With a connect stub that always fails without a timeout signal, the
connect loop performs exactly one attempt per remaining unit of the
restart budget, never consults the reset helper, and then raises. -/
theorem try_connect_allfail (connect : Nat → ConnectOutcome)
    (resetOk : Nat → Bool) (hfail : ∀ n, connect n = .fail false)
    (fuel : Nat) :
    ∀ (st : ManagerState) (cc rc : Nat),
      st.restart_attempts < st.max_restart_attempts →
      st.max_restart_attempts - st.restart_attempts ≤ fuel →
      try_connect_camera connect resetOk fuel st cc rc =
        ⟨.failed,
         { st with camera := some false,
                   restart_attempts := st.max_restart_attempts },
         cc + (st.max_restart_attempts - st.restart_attempts), rc⟩ := by
  induction fuel with
  | zero => intro st cc rc hlt hfuel; omega
  | succ fuel ih =>
      intro st cc rc hlt hfuel
      by_cases h2 : st.restart_attempts + 1 < st.max_restart_attempts
      · rw [show try_connect_camera connect resetOk (fuel + 1) st cc rc =
            try_connect_camera connect resetOk fuel
              { st with camera := some false,
                        restart_attempts := st.restart_attempts + 1 }
              (cc + 1) rc from by
          simp [try_connect_camera, hfail cc, hlt, h2]]
        rw [ih _ (cc + 1) rc h2
          (show st.max_restart_attempts - (st.restart_attempts + 1) ≤ fuel by
            omega)]
        congr 1
        dsimp only
        omega
      · have hmax : st.max_restart_attempts = st.restart_attempts + 1 := by omega
        simp only [try_connect_camera, hfail cc, if_pos hlt, h2, if_false]
        rw [hmax]
        simp [Nat.add_sub_cancel_left]

/-- C3: with max-restart-attempts 3 and a connect function that always
fails with a non-timeout cause, initialization makes exactly 3 connect
attempts, invokes the reset helper 0 times, ends by raising
(`RuntimeError`), and the subsequent status query reports not
connected. -/
theorem C3_theorem (connect : Nat → ConnectOutcome) (resetOk : Nat → Bool)
    (hfail : ∀ n, connect n = .fail false) (fuel : Nat) (hf : 3 ≤ fuel) :
    (initializeManager connect resetOk fuel initialManagerState).result =
        .failed ∧
    (initializeManager connect resetOk fuel
        initialManagerState).connectCalls = 3 ∧
    (initializeManager connect resetOk fuel
        initialManagerState).resetCalls = 0 ∧
    is_camera_ready
        (initializeManager connect resetOk fuel initialManagerState).state =
      false := by
  have h := try_connect_allfail connect resetOk hfail fuel
      initialManagerState 0 0 (by decide)
      (show initialManagerState.max_restart_attempts -
          initialManagerState.restart_attempts ≤ fuel from by
        show 3 - 0 ≤ fuel
        omega)
  unfold initializeManager
  rw [if_neg (by decide : ¬ initialManagerState.is_initialized = true)]
  simp only [h]
  simp [is_camera_ready, initialManagerState]

/-- Witness for `C3_theorem` at the concrete always-failing stubs. -/
theorem C3_theorem_witness :
    (initializeManager c3connect c3reset 10 initialManagerState).result =
        .failed ∧
    (initializeManager c3connect c3reset 10
        initialManagerState).connectCalls = 3 ∧
    (initializeManager c3connect c3reset 10
        initialManagerState).resetCalls = 0 ∧
    is_camera_ready
        (initializeManager c3connect c3reset 10 initialManagerState).state =
      false :=
  C3_theorem c3connect c3reset (fun _ => rfl) 10 (by omega)

/-- A connect attempt that fails with a protocol timeout and whose
ensuing USB reset succeeds is not charged to the restart budget: the
loop recurses with `restart_attempts` unchanged, the reset helper
invoked once more and the next connect attempt queued immediately. -/
theorem try_connect_timeout_uncount (connect : Nat → ConnectOutcome)
    (resetOk : Nat → Bool) (fuel : Nat) (st : ManagerState) (cc rc : Nat)
    (hra : st.restart_attempts < st.max_restart_attempts)
    (hub : st.usb_reset_count < st.max_usb_reset_attempts)
    (hauto : st.auto_usb_reset = true)
    (hc : connect cc = .fail true) (hok : resetOk rc = true) :
    try_connect_camera connect resetOk (fuel + 1) st cc rc =
      try_connect_camera connect resetOk fuel
        { st with camera := some false,
                  usb_reset_count := st.usb_reset_count + 1 }
        (cc + 1) (rc + 1) := by
  simp [try_connect_camera, try_usb_reset, hc, hra, hauto, hok,
    Nat.not_le.mpr hub]

/-- C4 (counterexample): the claim that a timeout-failing connect
attempt is never counted against the restart budget, with the reset
helper invoked exactly once per such attempt, is false.  With every
attempt failing on a protocol timeout and every bus reset failing, each
attempt is charged: the run ends failed with the restart counter at 3
(not its pre-attempt value 0) after 3 attempts, and only 2 reset
invocations occurred (the third attempt found the reset budget
exhausted). -/
theorem C4_counterexample :
    try_connect_camera (fun _ => .fail true) (fun _ => false) 10
        initialManagerState 0 0 =
      ⟨.failed,
       { restart_attempts := 3, usb_reset_count := 2,
         is_initialized := false, camera := some false }, 3, 2⟩ ∧
    (try_connect_camera (fun _ => .fail true) (fun _ => false) 10
        initialManagerState 0 0).state.restart_attempts ≠ 0 := by
  decide

/-- C4 (amended): a timeout-failing connect attempt is uncounted exactly
when its ensuing USB reset succeeds — the restart counter then keeps its
pre-attempt value, the reset helper is invoked once, and connect is
re-attempted immediately; and in the scenario where connect fails once
with a protocol timeout, the bus reset succeeds and the next connect
succeeds, the supervisor ends Ready (initialized, camera ready) after 2
connect attempts and exactly 1 reset invocation. -/
theorem C4_theorem (connect : Nat → ConnectOutcome) (resetOk : Nat → Bool) :
    (∀ (fuel : Nat) (st : ManagerState) (cc rc : Nat),
        st.restart_attempts < st.max_restart_attempts →
        st.usb_reset_count < st.max_usb_reset_attempts →
        st.auto_usb_reset = true →
        connect cc = .fail true → resetOk rc = true →
        try_connect_camera connect resetOk (fuel + 1) st cc rc =
          try_connect_camera connect resetOk fuel
            { st with camera := some false,
                      usb_reset_count := st.usb_reset_count + 1 }
            (cc + 1) (rc + 1)) ∧
    (∀ fuel : Nat,
        connect 0 = .fail true → connect 1 = .ok → resetOk 0 = true →
        initializeManager connect resetOk (fuel + 2) initialManagerState =
          ⟨.connected,
           { restart_attempts := 0, usb_reset_count := 0,
             is_initialized := true, camera := some true }, 2, 1⟩ ∧
        is_camera_ready
            (initializeManager connect resetOk (fuel + 2)
              initialManagerState).state = true) := by
  constructor
  · intro fuel st cc rc hra hub hauto hc hok
    exact try_connect_timeout_uncount connect resetOk fuel st cc rc
      hra hub hauto hc hok
  · intro fuel hc0 hc1 hok0
    have hstep : try_connect_camera connect resetOk (fuel + 2)
        initialManagerState 0 0 =
        try_connect_camera connect resetOk (fuel + 1)
          { restart_attempts := 0, usb_reset_count := 1,
            is_initialized := false, camera := some false } 1 1 :=
      try_connect_timeout_uncount connect resetOk (fuel + 1)
        initialManagerState 0 0 (by decide) (by decide) rfl hc0 hok0
    have h2 : try_connect_camera connect resetOk (fuel + 1)
        { restart_attempts := 0, usb_reset_count := 1,
          is_initialized := false, camera := some false } 1 1 =
        ⟨.connected,
         { restart_attempts := 0, usb_reset_count := 0,
           is_initialized := false, camera := some true }, 2, 1⟩ := by
      simp [try_connect_camera, hc1]
    have hm : initializeManager connect resetOk (fuel + 2)
        initialManagerState =
        ⟨.connected,
         { restart_attempts := 0, usb_reset_count := 0,
           is_initialized := true, camera := some true }, 2, 1⟩ := by
      unfold initializeManager
      rw [if_neg (by decide : ¬ initialManagerState.is_initialized = true)]
      simp only [hstep, h2]
    exact ⟨hm, by rw [hm]; rfl⟩

/-- Witness for `C4_theorem` at the concrete timeout-once stubs. -/
theorem C4_theorem_witness :
    try_connect_camera c4connect c4reset 5 initialManagerState 0 0 =
      try_connect_camera c4connect c4reset 4
        { restart_attempts := 0, usb_reset_count := 1,
          is_initialized := false, camera := some false } 1 1 ∧
    initializeManager c4connect c4reset 10 initialManagerState =
      ⟨.connected,
       { restart_attempts := 0, usb_reset_count := 0,
         is_initialized := true, camera := some true }, 2, 1⟩ := by
  constructor
  · exact (C4_theorem c4connect c4reset).1 4 initialManagerState 0 0
      (by decide) (by decide) rfl rfl rfl
  · exact ((C4_theorem c4connect c4reset).2 8 rfl rfl rfl).1

/-- C5 (counterexample): the claim that `set_config_value` fails with an
`UnsupportedOption` error when coercion or applying the value fails is
false: a coercion failure (`int(\"abc\")`) and a rejected device apply
are both swallowed — the call returns normally with the failure merely
logged, never an error. -/
theorem C5_counterexample :
    set_config_value c5cfgBad "actions" "viewfinder" (.pyStr "abc") =
      .ok .errLogged ∧
    set_config_value c5cfgBad "settings" "capturetarget"
        (.pyStr "Memory card") = .ok .warnLogged := by
  decide

/-- C5 (amended): `set_config_value` coerces by widget kind — toggle to
an integer, enumerated-choice to a string matched against the choices
with the 'Memory card' alias fallback, numeric-range to a float, free
text to a string, date to an integer timestamp — but it never raises:
every coercion or apply failure is logged and swallowed and the call
returns normally; `get_config_value` fails with an `UnknownOption` error
(`ValueError`) when the option does not exist. -/
theorem C5_theorem (cfg : List (String × String × Widget))
    (sect opt : String) (v : PyValue) :
    (∃ out, set_config_value cfg sect opt v = .ok out) ∧
    (∀ w out, findWidget cfg sect opt = some w →
      set_config_value cfg sect opt v = .ok (.applied out) →
      (w.wkind = .toggle → ∃ n, out = .pyInt n) ∧
      (w.wkind = .radio →
        out = .pyStr (pyToStr v) ∨
        (pyToStr v = "Memory card" ∧
          (out = .pyStr "card" ∨ out = .pyStr "card+sdram"))) ∧
      (w.wkind = .range → ∃ q, out = .pyFloat q) ∧
      (w.wkind = .text → out = .pyStr (pyToStr v)) ∧
      (w.wkind = .date → ∃ n, out = .pyInt n)) ∧
    (findWidget cfg sect opt = none →
      get_config_value cfg sect opt = .error (.unknownOption sect opt)) := by
  refine ⟨?_, ?_, ?_⟩
  · cases h : findWidget cfg sect opt with
    | none => exact ⟨.warnLogged, by simp [set_config_value, h]⟩
    | some w =>
        cases h2 : coerceForWidget w v with
        | none => exact ⟨.errLogged, by simp [set_config_value, h, h2]⟩
        | some u =>
            by_cases h3 : w.applyOk u = true
            · exact ⟨.applied u, by simp [set_config_value, h, h2, h3]⟩
            · exact ⟨.warnLogged, by simp [set_config_value, h, h2, h3]⟩
  · intro w out hw happ
    simp only [set_config_value, hw] at happ
    cases h2 : coerceForWidget w v with
    | none => simp [h2] at happ
    | some u =>
        simp only [h2] at happ
        split_ifs at happ with h3
        · have hu : u = out := by simpa using happ
          subst hu
          refine ⟨?_, ?_, ?_, ?_, ?_⟩
          · intro hk
            simp only [coerceForWidget, hk] at h2
            cases hi : pyToInt v with
            | none => simp [hi] at h2
            | some n =>
                simp [hi] at h2
                exact ⟨n, h2.symm⟩
          · intro hk
            simp only [coerceForWidget, hk] at h2
            split_ifs at h2 with hc1 hc2 hc3
            · left
              simp at h2
              exact h2.symm
            · right
              simp at hc2
              simp at h2
              exact ⟨hc2.1, .inl h2.symm⟩
            · right
              simp at hc3
              simp at h2
              exact ⟨hc3.1, .inr h2.symm⟩
            · left
              simp at h2
              exact h2.symm
          · intro hk
            simp only [coerceForWidget, hk] at h2
            cases hi : pyToFloat v with
            | none => simp [hi] at h2
            | some q =>
                simp [hi] at h2
                exact ⟨q, h2.symm⟩
          · intro hk
            simp only [coerceForWidget, hk] at h2
            simp at h2
            exact h2.symm
          · intro hk
            simp only [coerceForWidget, hk] at h2
            cases hi : pyToInt v with
            | none => simp [hi] at h2
            | some n =>
                simp [hi] at h2
                exact ⟨n, h2.symm⟩
        · simp at happ
  · intro hn
    simp [get_config_value, hn]

/-- Witness for `C5_theorem`: a toggle set applies an integer, and a
lookup of a missing option raises `UnknownOption`. -/
theorem C5_theorem_witness :
    (∃ out, set_config_value c5cfgGood "actions" "viewfinder" (.pyInt 1) =
      .ok out) ∧
    (∃ n, (PyValue.pyInt 1 : PyValue) = .pyInt n) ∧
    get_config_value c5cfgGood "imgsettings" "iso" =
      .error (.unknownOption "imgsettings" "iso") := by
  refine ⟨(C5_theorem c5cfgGood "actions" "viewfinder" (.pyInt 1)).1, ?_, ?_⟩
  · exact ((C5_theorem c5cfgGood "actions" "viewfinder" (.pyInt 1)).2.1
      c5toggleWidget (.pyInt 1) rfl (by decide)).1 rfl
  · exact (C5_theorem c5cfgGood "imgsettings" "iso" (.pyInt 0)).2.2 rfl

/-- C6: `reset_usb_device` (a total Boolean function in this model — no
exception escapes it) returns false on each expected failure mode: no
device with the configured vendor id to locate, permission denied
writing the `authorized` file, and — since it returns true only when the
post-reset scan finds the device — the device not reappearing after
re-enumeration; and `find_camera_sysfs_path` fails with
`FileNotFoundError` exactly when no scanned device has a readable
`idVendor` equal to the configured vendor id together with an
`authorized` attribute. -/
theorem C6_theorem (vendor_id : String) (cached : Option String)
    (devsBefore devsAfter : List UsbDevice) :
    (find_camera_sysfs_path vendor_id devsBefore = .error () ↔
      ∀ d ∈ devsBefore,
        ¬(d.idVendor = some vendor_id ∧ d.hasAuthorized = true)) ∧
    (find_camera_sysfs_path vendor_id devsBefore = .error () →
      reset_usb_device vendor_id none devsBefore devsAfter = false) ∧
    (∀ d, devsBefore.find?
        (fun x => x.idVendor == some vendor_id && x.hasAuthorized) = some d →
      devsBefore.find? (fun x => x.path == d.path) = some d →
      d.authWritable = false →
      reset_usb_device vendor_id none devsBefore devsAfter = false) ∧
    (reset_usb_device vendor_id cached devsBefore devsAfter = true →
      ∃ p, find_camera_sysfs_path vendor_id devsAfter = .ok p) := by
  refine ⟨⟨?_, ?_⟩, ?_, ?_, ?_⟩
  · intro he
    cases hf : devsBefore.find?
        (fun d => d.idVendor == some vendor_id && d.hasAuthorized) with
    | some d => simp [find_camera_sysfs_path, hf] at he
    | none =>
        intro d hd hcond
        have hp := List.find?_eq_none.mp hf d hd
        apply hp
        simp [hcond.1, hcond.2]
  · intro hall
    cases hf : devsBefore.find?
        (fun d => d.idVendor == some vendor_id && d.hasAuthorized) with
    | none => simp [find_camera_sysfs_path, hf]
    | some d =>
        have hmem := List.mem_of_find?_eq_some hf
        have hpred := List.find?_some hf
        simp at hpred
        exact absurd ⟨hpred.1, hpred.2⟩ (hall d hmem)
  · intro he
    simp [reset_usb_device, he]
  · intro d h1 h2 h3
    have hpred := List.find?_some h1
    simp at hpred
    simp [reset_usb_device, find_camera_sysfs_path, h1, h2, hpred.2, h3]
  · intro ht
    unfold reset_usb_device at ht
    rcases hfa : find_camera_sysfs_path vendor_id devsAfter with _ | p
    · exfalso
      rw [hfa] at ht
      simp at ht
      split at ht <;> try simp at ht
      all_goals (split at ht <;> try simp at ht)
    · exact ⟨p, rfl⟩

/-- Witness for `C6_theorem`: with only a foreign hub present the locate
fails and the reset returns false; a permission-denied camera makes the
reset return false; a successful reset implies the camera reappeared. -/
theorem C6_theorem_witness :
    reset_usb_device "04a9" none [c6deviceHub] [] = false ∧
    reset_usb_device "04a9" none [c6deviceHub, c6deviceDenied] [] = false ∧
    (∃ p, find_camera_sysfs_path "04a9" [c6deviceOk] = .ok p) ∧
    find_camera_sysfs_path "04a9" [c6deviceHub] = .error () := by
  have h1 := C6_theorem "04a9" none [c6deviceHub] []
  have h2 := C6_theorem "04a9" none [c6deviceHub, c6deviceDenied] []
  have h3 := C6_theorem "04a9" none [c6deviceOk] [c6deviceOk]
  exact ⟨h1.2.1 (by decide),
    h2.2.2.1 c6deviceDenied (by decide) (by decide) rfl,
    h3.2.2.2 (by decide), h1.1.mpr (by decide)⟩


/-- Witness for `C10_theorem`: a ready camera with a failing capture and
the reset flag raised returns the black frame and schedules recovery; a
non-ready camera raises Camera-not-ready. -/
theorem C10_theorem_witness :
    manager_get_preview_frame true (.error "PTP timeout") true =
      .ok (blackPreviewFrame, true) ∧
    manager_get_preview_frame false (.ok (.captured [1])) false =
      .error .cameraNotReady :=
  ⟨(C10_theorem true (.error "PTP timeout") true).2.1 rfl "PTP timeout" rfl,
   (C10_theorem false (.ok (.captured [1])) false).2.2.2 rfl⟩

end Photonic


